import Mathlib

/-!
Shallow embedding of `testsuite/cluster-test/src/experiments/performance_benchmark.rs`.

The experiment value, the parameter build step, and the `run`/`report` methods are
translated into pure Lean functions. External effects (stopping and restarting
validators, driving load, capturing traces, querying metrics) are made explicit:
their outcomes are fields of an `Env` record, and the commands a run issues are
collected into an ordered `Action` list. Randomness (node choice, the validator
shuffle) is passed in as explicit data. Durations are in seconds.
-/

namespace ClusterTest

/-- A cluster member handle: name and the validator group used to pair fullnodes. -/
structure Instance where
  name : String
  validator_group : Nat
deriving DecidableEq

/-- One captured trace event: timestamp, operation name, payload, and the peer tag
inserted during normalization. -/
structure TraceEvent where
  timestamp : Nat
  operation : String
  payload : String
  peer : Option String
deriving DecidableEq

/-- Aggregate load statistics returned by the transaction emitter. -/
structure TxStats where
  submitted : Nat
  committed : Nat
deriving DecidableEq

/-- Opaque global default emit job request held by the context. -/
structure GlobalEmitJobRequest where
  id : Nat
deriving DecidableEq

/-- Modelled from the spec: `tx_emitter::EmitJobRequest` (the tx_emitter module is not
part of this source file) — either a fixed-rate request carrying the target rate
exactly, or a request derived from the global default. -/
inductive EmitJobRequest where
  | fixedTps (instances : List Instance) (tps : Nat)
  | forInstances (instances : List Instance) (global : GlobalEmitJobRequest)
deriving DecidableEq

/-- The experiment state built by `PerformanceBenchmarkParams::build`. -/
structure PerformanceBenchmark where
  down_validators : List Instance
  up_validators : List Instance
  up_fullnodes : List Instance
  percent_nodes_down : Nat
  duration : Nat
  trace : Bool
  tps : Option Nat
  use_logs_for_trace : Bool
  backup : Bool
deriving DecidableEq

/-- The CLI parameters of the performance benchmark. -/
structure PerformanceBenchmarkParams where
  percent_nodes_down : Nat
  trace : Bool
  use_logs_for_trace : Bool
  duration : Nat
  tps : Option Nat
  backup : Bool
deriving DecidableEq

/-- `DEFAULT_BENCH_DURATION` from the source. -/
def DEFAULT_BENCH_DURATION : Nat := 120

/-- The cluster snapshot: validator and fullnode handles. -/
structure Cluster where
  validator_instances : List Instance
  fullnode_instances : List Instance
deriving DecidableEq

/-- Modelled from the spec: random choice from a slice (`SliceRandom::choose`) —
`none` exactly when the list is empty, otherwise the element at the externally
supplied random index. -/
def chooseRandom {α : Type} (l : List α) (i : Nat) : Option α :=
  l.get? (i % l.length)

/-- Modelled from the spec: `Cluster::split_n_validators_random` (the cluster module
is not part of this source file) — `shuffled` is the validator list in the random
order drawn by the RNG; the first `n` entries form the down set, the remainder the
up set. -/
def split_n_validators_random (shuffled : List Instance) (n : Nat) :
    List Instance × List Instance :=
  (shuffled.take n, shuffled.drop n)

/-- `PerformanceBenchmarkParams::build`: computes the number of down nodes, splits
the validators at random, and pairs each up validator with the first fullnode of its
validator group. -/
def build (p : PerformanceBenchmarkParams) (c : Cluster) (shuffled : List Instance) :
    PerformanceBenchmark :=
  let all_fullnode_instances := c.fullnode_instances
  let num_nodes := c.validator_instances.length
  let nodes_down := num_nodes * p.percent_nodes_down / 100
  let dn := split_n_validators_random shuffled nodes_down
  let up_validators := dn.2
  let up_fullnodes := up_validators.filterMap fun val =>
    all_fullnode_instances.find? fun x => val.validator_group == x.validator_group
  { down_validators := dn.1
    up_validators := up_validators
    up_fullnodes := up_fullnodes
    percent_nodes_down := p.percent_nodes_down
    duration := p.duration
    trace := p.trace
    tps := p.tps
    use_logs_for_trace := p.use_logs_for_trace
    backup := p.backup }

/-- The parts of `experiments::Context` that `run` reads. -/
structure Context where
  emit_to_validator : Bool
  global_emit_job_request : GlobalEmitJobRequest
deriving DecidableEq

/-- Outcomes of the external world during one run: the aggregate result of the stop
calls, the RNG draws, the emitter statistics, the two trace sources, the metric
queries and the aggregate result of the restart calls. -/
structure Env where
  stopResult : Except String Unit
  backupPick : Nat
  statsResult : Except String TxStats
  liveCapture : List (String × TraceEvent)
  logResult : Except String (List (String × TraceEvent))
  nodePick : Nat
  avgTxnsPerBlock : Option Nat
  avgBackupBytes : Option Nat
  restartResult : Except String Unit

/-- External commands issued by a run, in order. -/
inductive Action where
  | stop (v : Instance)
  | startBackup (v : Instance)
  | emitTxn (window : Nat) (req : EmitJobRequest)
  | captureTrace
  | fetchLogTrace
  | traceNode (node : String)
  | reportMetric (name : String) (value : Nat)
  | reportTxStats (label : String) (stats : TxStats) (window : Nat)
  | reportText (text : String)
  | restart (v : Instance) (wipe : Bool)
deriving DecidableEq

/-- How a run ends: normal return, a propagated error, or a panic. -/
inductive Outcome where
  | ok
  | err (msg : String)
  | panicked (msg : String)
deriving DecidableEq

/-- The observable result of one run: the commands issued in order, how the run
ended, and the final state of the experiment value. -/
structure RunResult where
  actions : List Action
  outcome : Outcome
  final : PerformanceBenchmark
deriving DecidableEq

/-- `PerformanceBenchmark::maybe_start_backup`: no handle when backup is disabled;
otherwise a randomly chosen up validator, or the error when none exists. -/
def maybe_start_backup (b : PerformanceBenchmark) (pick : Nat) :
    Except String (Option Instance) :=
  if !b.backup then .ok none
  else
    match chooseRandom b.up_validators pick with
    | none => .error "No up validator."
    | some v => .ok (some v)

/-- The `Display` implementation of `PerformanceBenchmark`. -/
def label (b : PerformanceBenchmark) : String :=
  match b.tps with
  | some tps => "fixed tps " ++ toString tps
  | none =>
    if b.percent_nodes_down == 0 then "all up"
    else toString b.percent_nodes_down ++ "% down"

/-- Insert the source node tag into an event, as `run` does for every traced pair. -/
def setPeer (node : String) (e : TraceEvent) : TraceEvent :=
  { e with peer := some node }

/-- Merge the per-node trace pairs into one event list, tagging each with its node. -/
def normalizeEvents (tr : List (String × TraceEvent)) : List TraceEvent :=
  tr.map fun p => setPeer p.1 p.2

/-- The `events.sort_by_key` call: Rust slice sorting is stable, modelled by a
stable sort on the timestamp key (any two stable sorts by the same key agree). -/
def sortEvents (l : List TraceEvent) : List TraceEvent :=
  l.insertionSort fun a b => a.timestamp ≤ b.timestamp

/-- Modelled from the spec: `libra_trace::trace::random_node` (the libra_trace crate
is not part of this source file) — picks uniformly at random among events whose
operation matches and whose payload starts with the given pattern, returning the
node tag of the chosen event; `none` exactly when no event matches. -/
def random_node (events : List TraceEvent) (op pat : String) (pick : Nat) :
    Option String :=
  let matching := events.filter fun e => e.operation == op && pat.isPrefixOf e.payload
  (chooseRandom matching pick).map fun e => e.peer.getD ""

/-- The trace value after the concurrent join and the optional log-index override
(`run` lines 162 to 187): the live path result when tracing is enabled, replaced
entirely by the log-index fetch when `use_logs_for_trace` is set. -/
def resolveTrace (b : PerformanceBenchmark) (env : Env) :
    Option (List (String × TraceEvent)) :=
  let live := if b.trace then some env.liveCapture else none
  if b.use_logs_for_trace then
    match env.logResult with
    | .ok t => some t
    | .error _ => none
  else live

/-- The instance set the load is driven against. -/
def chosenInstances (ctx : Context) (b : PerformanceBenchmark) : List Instance :=
  if ctx.emit_to_validator then b.up_validators else b.up_fullnodes

/-- The emit job request built by `run`: fixed-rate when `tps` is set, otherwise
derived from the global default request. -/
def mkEmitJobRequest (tps : Option Nat) (instances : List Instance)
    (g : GlobalEmitJobRequest) : EmitJobRequest :=
  match tps with
  | some t => .fixedTps instances t
  | none => .forInstances instances g

/-- `PerformanceBenchmark::report`: emits the optional per-block metric, the raw
transaction statistics tagged with the label, and, when backup is enabled, the
backup throughput metric and a summary line; its body always returns `Ok(())`. -/
def report (b : PerformanceBenchmark) (env : Env) (window : Nat) (stats : TxStats) :
    List Action × PerformanceBenchmark :=
  let metricActs := match env.avgTxnsPerBlock with
    | some v => [Action.reportMetric "avg_txns_per_block" v]
    | none => []
  let backupActs := if b.backup then
      [Action.reportMetric "avg_backup_bytes_per_second" (env.avgBackupBytes.getD 0),
       Action.reportText (label b)]
    else []
  (metricActs ++ [Action.reportTxStats (label b) stats window] ++ backupActs, b)

/-- The tail of `run` after trace processing: check the emitter result, report, drop
the backup handle, and restart every down validator without wipe. -/
def finishRun (b : PerformanceBenchmark) (env : Env) (preActs : List Action) :
    RunResult :=
  match env.statsResult with
  | .error e => ⟨preActs, .err e, b⟩
  | .ok stats =>
    let window := b.duration + 60 * 2
    let rep := report b env window stats
    let restartActs := rep.2.down_validators.map fun v => Action.restart v false
    match env.restartResult with
    | .error e => ⟨preActs ++ rep.1 ++ restartActs, .err e, rep.2⟩
    | .ok _ => ⟨preActs ++ rep.1 ++ restartActs, .ok, rep.2⟩

/-- The spawn command issued for the backup handle, when one exists. -/
def backupActions : Option Instance → List Action
  | some v => [Action.startBackup v]
  | none => []

/-- `PerformanceBenchmark::run`: stop the down validators, maybe start backup, drive
load and capture trace concurrently, apply the log-index override, process the trace
(panicking when no event matches the submission pattern), report, and restart the
down validators. Every `?` in the source is an early return carrying the error. -/
def run (b : PerformanceBenchmark) (ctx : Context) (env : Env) : RunResult :=
  let stopActs := b.down_validators.map Action.stop
  match env.stopResult with
  | .error e => ⟨stopActs, .err e, b⟩
  | .ok _ =>
    match maybe_start_backup b env.backupPick with
    | .error e => ⟨stopActs, .err e, b⟩
    | .ok bh =>
      let backupActs := backupActions bh
      let window := b.duration + 60 * 2
      let req := mkEmitJobRequest b.tps (chosenInstances ctx b) ctx.global_emit_job_request
      let emitActs := [Action.emitTxn window req]
      let captureActs := if b.trace then [Action.captureTrace] else []
      let logActs := if b.use_logs_for_trace then [Action.fetchLogTrace] else []
      let preActs := stopActs ++ backupActs ++ emitActs ++ captureActs ++ logActs
      match resolveTrace b env with
      | some tr =>
        let events := sortEvents (normalizeEvents tr)
        match random_node events "json-rpc::submit" "txn::" env.nodePick with
        | none => ⟨preActs, .panicked "No trace node found", b⟩
        | some node => finishRun b env (preActs ++ [Action.traceNode node])
      | none => finishRun b env preActs

/-- Recognizes restart commands. -/
def isRestartAct : Action → Bool
  | .restart _ _ => true
  | _ => false

/-- Recognizes reporting commands. -/
def isReportAct : Action → Bool
  | .reportMetric _ _ => true
  | .reportTxStats _ _ _ => true
  | .reportText _ => true
  | _ => false

/-- Recognizes the load-driving command. -/
def isEmitAct : Action → Bool
  | .emitTxn _ _ => true
  | _ => false

/-- True when an `Except` carries a success. -/
def exceptOk {α : Type} (e : Except String α) : Bool :=
  match e with
  | .ok _ => true
  | .error _ => false

/-- True when trace processing would hit the `expect`: a trace value is present but
no event matches the submission pattern. -/
def tracePanics (b : PerformanceBenchmark) (env : Env) : Bool :=
  match resolveTrace b env with
  | none => false
  | some tr =>
    (random_node (sortEvents (normalizeEvents tr)) "json-rpc::submit" "txn::"
      env.nodePick).isNone

/-- True when every fallible step of the run body before the restart calls
succeeds: the stop calls, the backup start, trace processing and the emitter. -/
def runBodyOk (b : PerformanceBenchmark) (env : Env) : Bool :=
  exceptOk env.stopResult && exceptOk (maybe_start_backup b env.backupPick)
    && !(tracePanics b env) && exceptOk env.statsResult

/-- True when the emit step of the run is reached: the stop calls and the backup
start both succeeded. -/
def emitReached (b : PerformanceBenchmark) (env : Env) : Bool :=
  exceptOk env.stopResult && exceptOk (maybe_start_backup b env.backupPick)

/-- A filter by a predicate false on every element of the list is empty. -/
theorem filter_false_of_all (p : Action → Bool) (l : List Action)
    (h : ∀ a ∈ l, p a = false) : l.filter p = [] := by
  induction l with
  | nil => rfl
  | cons a t ih =>
    rw [List.filter_cons, h a (List.mem_cons_self a t)]
    simpa using ih fun x hx => h x (List.mem_cons_of_mem a hx)

/-- Stop commands are not restart commands. -/
theorem no_restart_in_stop (l : List Instance) :
    (l.map Action.stop).filter isRestartAct = [] := by
  refine filter_false_of_all _ _ ?_
  intro a ha
  rcases List.mem_map.mp ha with ⟨v, _, rfl⟩
  rfl

/-- The filter keeping restart commands keeps the restart list whole. -/
theorem restart_filter_self (l : List Instance) :
    ((l.map fun v => Action.restart v false).filter isRestartAct) =
      l.map fun v => Action.restart v false := by
  induction l with
  | nil => rfl
  | cons a t ih => simp [List.filter_cons, isRestartAct, ih]

/-- Report never issues restart commands. -/
theorem no_restart_in_report (b : PerformanceBenchmark) (env : Env)
    (window : Nat) (stats : TxStats) :
    (report b env window stats).1.filter isRestartAct = [] := by
  unfold report
  cases havg : env.avgTxnsPerBlock <;> cases hb : b.backup <;>
    simp [List.filter_append, List.filter_cons, isRestartAct]

/-- C1 counterexample data: one down validator, load driver fails. -/
def vA : Instance := ⟨"val-0", 0⟩

/-- Second concrete validator handle. -/
def vB : Instance := ⟨"val-1", 1⟩

/-- Benchmark value for the C1 counterexample. -/
def bC1 : PerformanceBenchmark :=
  ⟨[vA], [vB], [], 25, 120, false, none, false, false⟩

/-- Context for the concrete runs. -/
def ctx0 : Context := ⟨true, ⟨0⟩⟩

/-- Environment for the C1 counterexample: everything succeeds except the emitter. -/
def envC1 : Env :=
  ⟨.ok (), 0, .error "tx emitter failed", [], .ok [], 0, none, none, .ok ()⟩

/-- C1: the claim says a run-body error still leads to the restart calls being
issued; at this input the load driver fails, the run returns that error, and no
restart command is ever issued even though a validator is down. -/
theorem c1_counterexample :
    bC1.down_validators ≠ [] ∧
    (run bC1 ctx0 envC1).outcome = .err "tx emitter failed" ∧
    (run bC1 ctx0 envC1).actions.filter isRestartAct = [] := by
  refine ⟨by decide, by decide, by decide⟩

/-- The report step never changes the experiment value. -/
theorem report_snd (b : PerformanceBenchmark) (env : Env) (window : Nat)
    (stats : TxStats) : (report b env window stats).2 = b := rfl

/-- The backup spawn command is not a restart command. -/
theorem no_restart_in_backupacts (bh : Option Instance) :
    (backupActions bh).filter isRestartAct = [] := by
  cases bh <;> rfl

/-- C1 amended: reversion is attempted, exactly once per down validator, if and only
if every fallible step of the run body succeeded (stop calls, backup start, trace
processing, emitter); on any run-body error or trace panic the run returns without
issuing a single restart command. -/
theorem c1_revert_iff_body_ok (b : PerformanceBenchmark) (ctx : Context) (env : Env) :
    (run b ctx env).actions.filter isRestartAct =
      (if runBodyOk b env then b.down_validators.map fun v => Action.restart v false
       else []) := by
  obtain ⟨dv, uv, uf, pnd, dur, btr, btps, blog, bback⟩ := b
  obtain ⟨stopR, bpick, statsR, live, logR, npick, avgT, avgB, restR⟩ := env
  unfold run runBodyOk tracePanics resolveTrace finishRun
  cases stopR with
  | error e => simp [exceptOk, no_restart_in_stop]
  | ok u =>
    cases hback : maybe_start_backup ⟨dv, uv, uf, pnd, dur, btr, btps, blog, bback⟩
        bpick with
    | error e => simp [exceptOk, no_restart_in_stop]
    | ok bh =>
      cases blog with
      | true =>
        cases logR with
        | error e2 =>
          cases statsR with
          | error e3 =>
            simp [exceptOk, List.filter_append, List.filter_cons, isRestartAct,
              no_restart_in_stop, no_restart_in_backupacts,
              apply_ite (List.filter isRestartAct)]
          | ok s =>
            cases restR <;>
              simp [exceptOk, List.filter_append, List.filter_cons, isRestartAct,
                no_restart_in_stop, no_restart_in_backupacts, no_restart_in_report,
                restart_filter_self, report_snd, apply_ite (List.filter isRestartAct)]
        | ok t =>
          cases hnode : random_node (sortEvents (normalizeEvents t))
              "json-rpc::submit" "txn::" npick with
          | none =>
            simp [exceptOk, List.filter_append, List.filter_cons, isRestartAct,
              no_restart_in_stop, no_restart_in_backupacts, hnode,
              apply_ite (List.filter isRestartAct)]
          | some node =>
            cases statsR with
            | error e3 =>
              simp [exceptOk, List.filter_append, List.filter_cons, isRestartAct,
                no_restart_in_stop, no_restart_in_backupacts, hnode,
                apply_ite (List.filter isRestartAct)]
            | ok s =>
              cases restR <;>
                simp [exceptOk, List.filter_append, List.filter_cons, isRestartAct,
                  no_restart_in_stop, no_restart_in_backupacts, no_restart_in_report,
                  restart_filter_self, report_snd, hnode,
                  apply_ite (List.filter isRestartAct)]
      | false =>
        cases btr with
        | false =>
          cases statsR with
          | error e3 =>
            simp [exceptOk, List.filter_append, List.filter_cons, isRestartAct,
              no_restart_in_stop, no_restart_in_backupacts,
              apply_ite (List.filter isRestartAct)]
          | ok s =>
            cases restR <;>
              simp [exceptOk, List.filter_append, List.filter_cons, isRestartAct,
                no_restart_in_stop, no_restart_in_backupacts, no_restart_in_report,
                restart_filter_self, report_snd, apply_ite (List.filter isRestartAct)]
        | true =>
          cases hnode : random_node (sortEvents (normalizeEvents live))
              "json-rpc::submit" "txn::" npick with
          | none =>
            simp [exceptOk, List.filter_append, List.filter_cons, isRestartAct,
              no_restart_in_stop, no_restart_in_backupacts, hnode,
              apply_ite (List.filter isRestartAct)]
          | some node =>
            cases statsR with
            | error e3 =>
              simp [exceptOk, List.filter_append, List.filter_cons, isRestartAct,
                no_restart_in_stop, no_restart_in_backupacts, hnode,
                apply_ite (List.filter isRestartAct)]
            | ok s =>
              cases restR <;>
                simp [exceptOk, List.filter_append, List.filter_cons, isRestartAct,
                  no_restart_in_stop, no_restart_in_backupacts, no_restart_in_report,
                  restart_filter_self, report_snd, hnode,
                  apply_ite (List.filter isRestartAct)]

/-- Stop commands are not reporting commands. -/
theorem no_report_in_stop (l : List Instance) :
    (l.map Action.stop).filter isReportAct = [] := by
  refine filter_false_of_all _ _ ?_
  intro a ha
  rcases List.mem_map.mp ha with ⟨v, _, rfl⟩
  rfl

/-- The backup spawn command is not a reporting command. -/
theorem no_report_in_backupacts (bh : Option Instance) :
    (backupActions bh).filter isReportAct = [] := by
  cases bh <;> rfl

/-- C2 counterexample data: backup enabled with an empty up-validator set. -/
def bC2 : PerformanceBenchmark := ⟨[], [], [], 0, 120, false, none, false, true⟩

/-- Environment for the C2 counterexample: every external call succeeds. -/
def envC2 : Env := ⟨.ok (), 0, .ok ⟨100, 100⟩, [], .ok [], 0, none, none, .ok ()⟩

/-- C2: the claim says the backup start fails with "no up node available" and the
run nevertheless proceeds; at this input the backup start fails with the actual
message "No up validator." and the run aborts: no load is driven and no report is
produced. -/
theorem c2_counterexample :
    bC2.backup = true ∧ bC2.up_validators = [] ∧
    (run bC2 ctx0 envC2).outcome = .err "No up validator." ∧
    (run bC2 ctx0 envC2).actions.filter isEmitAct = [] ∧
    (run bC2 ctx0 envC2).actions.filter isReportAct = [] := by
  refine ⟨by decide, by decide, by decide, by decide, by decide⟩

/-- C2 amended: when backup is enabled and the up-validator set is empty, the backup
start fails with the error "No up validator." and the run aborts immediately with
that error: only the stop commands have been issued, no load is driven and no report
is produced. -/
theorem c2_backup_no_up_aborts (b : PerformanceBenchmark) (ctx : Context) (env : Env)
    (hb : b.backup = true) (hup : b.up_validators = [])
    (hstop : env.stopResult = .ok ()) :
    run b ctx env =
      ⟨b.down_validators.map Action.stop, .err "No up validator.", b⟩ := by
  unfold run maybe_start_backup chooseRandom
  simp [hstop, hb, hup]

/-- C2 witness: the amended theorem instantiated at the concrete input. -/
theorem c2_witness :
    bC2.backup = true ∧ bC2.up_validators = [] ∧ envC2.stopResult = .ok () ∧
    run bC2 ctx0 envC2 =
      ⟨bC2.down_validators.map Action.stop, .err "No up validator.", bC2⟩ :=
  ⟨rfl, rfl, rfl, c2_backup_no_up_aborts bC2 ctx0 envC2 rfl rfl rfl⟩

/-- The event used in the C3 counterexample: its operation is not the
request-submission operation. -/
def evC3 : TraceEvent := ⟨5, "mempool::commit", "txn::abc", none⟩

/-- Benchmark value for the C3 counterexample: tracing enabled. -/
def bC3 : PerformanceBenchmark := ⟨[vA], [vB], [], 25, 120, true, none, false, false⟩

/-- Environment for the C3 counterexample: the captured trace has no matching event,
every other external call succeeds. -/
def envC3 : Env :=
  ⟨.ok (), 0, .ok ⟨10, 10⟩, [("node0", evC3)], .ok [], 0, none, none, .ok ()⟩

/-- C3: the claim says that when no event matches the pattern only the trace path
fails while reporting and cleanup still complete; at this input the run panics with
"No trace node found" and neither a report nor a restart command is ever issued. -/
theorem c3_counterexample :
    (run bC3 ctx0 envC3).outcome = .panicked "No trace node found" ∧
    (run bC3 ctx0 envC3).actions.filter isReportAct = [] ∧
    (run bC3 ctx0 envC3).actions.filter isRestartAct = [] := by
  refine ⟨by decide, by decide, by decide⟩

/-- C3 amended: when a trace value is present and no event matches the
request-submission pattern, the `expect` panics with "No trace node found" and the
panic aborts the whole run: no report and no restart command is issued. -/
theorem c3_no_match_panics (b : PerformanceBenchmark) (ctx : Context) (env : Env)
    (bh : Option Instance) (tr : List (String × TraceEvent))
    (hstop : env.stopResult = .ok ())
    (hback : maybe_start_backup b env.backupPick = .ok bh)
    (htr : resolveTrace b env = some tr)
    (hnode : random_node (sortEvents (normalizeEvents tr)) "json-rpc::submit" "txn::"
      env.nodePick = none) :
    (run b ctx env).outcome = .panicked "No trace node found" ∧
    (run b ctx env).actions.filter isReportAct = [] ∧
    (run b ctx env).actions.filter isRestartAct = [] := by
  unfold run
  rw [hstop, hback, htr]
  refine ⟨by simp [hnode], ?_, ?_⟩ <;>
    simp [hnode, List.filter_append, List.filter_cons, isReportAct, isRestartAct,
      no_report_in_stop, no_restart_in_stop, no_report_in_backupacts,
      no_restart_in_backupacts, apply_ite (List.filter isReportAct),
      apply_ite (List.filter isRestartAct)]

/-- C3 witness: the amended theorem instantiated at the concrete input. -/
theorem c3_witness :
    envC3.stopResult = .ok () ∧
    maybe_start_backup bC3 envC3.backupPick = .ok none ∧
    resolveTrace bC3 envC3 = some [("node0", evC3)] ∧
    random_node (sortEvents (normalizeEvents [("node0", evC3)])) "json-rpc::submit"
      "txn::" envC3.nodePick = none ∧
    ((run bC3 ctx0 envC3).outcome = .panicked "No trace node found" ∧
     (run bC3 ctx0 envC3).actions.filter isReportAct = [] ∧
     (run bC3 ctx0 envC3).actions.filter isRestartAct = []) :=
  ⟨rfl, rfl, rfl, by decide,
    c3_no_match_panics bC3 ctx0 envC3 none [("node0", evC3)] rfl rfl rfl (by decide)⟩

/-- C4: building the experiment from any shuffle of the validator list with
`percent_nodes_down` at most 100 puts exactly `n * percent / 100` (floor division)
validators in the down set; with distinct validators the down and up sets are
disjoint, and together they are exactly the validator set. -/
theorem c4_split_invariants (p : PerformanceBenchmarkParams) (c : Cluster)
    (s : List Instance) (hperm : s.Perm c.validator_instances)
    (hp : p.percent_nodes_down ≤ 100) (hnd : c.validator_instances.Nodup) :
    (build p c s).down_validators.length =
      c.validator_instances.length * p.percent_nodes_down / 100 ∧
    (build p c s).down_validators.Disjoint (build p c s).up_validators ∧
    ((build p c s).down_validators ++ (build p c s).up_validators).Perm
      c.validator_instances ∧
    (∀ v : Instance, (v ∈ (build p c s).down_validators ∨
        v ∈ (build p c s).up_validators) ↔ v ∈ c.validator_instances) := by
  have hdown : (build p c s).down_validators =
      s.take (c.validator_instances.length * p.percent_nodes_down / 100) := rfl
  have hup : (build p c s).up_validators =
      s.drop (c.validator_instances.length * p.percent_nodes_down / 100) := rfl
  have hlen : s.length = c.validator_instances.length := hperm.length_eq
  have hn : c.validator_instances.length * p.percent_nodes_down / 100 ≤ s.length := by
    rw [hlen]
    calc c.validator_instances.length * p.percent_nodes_down / 100
        ≤ c.validator_instances.length * 100 / 100 :=
          Nat.div_le_div_right (Nat.mul_le_mul_left _ hp)
      _ = c.validator_instances.length := Nat.mul_div_cancel _ (by omega)
  have hsnd : s.Nodup := hperm.nodup_iff.mpr hnd
  have happ : ((build p c s).down_validators ++ (build p c s).up_validators).Perm
      c.validator_instances := by
    rw [hdown, hup, List.take_append_drop]
    exact hperm
  refine ⟨?_, ?_, happ, ?_⟩
  · rw [hdown, List.length_take]
    omega
  · rw [hdown, hup]
    exact List.disjoint_take_drop hsnd le_rfl
  · intro v
    rw [← List.mem_append]
    exact happ.mem_iff

/-- Third and fourth concrete validator handles. -/
def vC : Instance := ⟨"val-2", 2⟩

/-- Fourth concrete validator handle. -/
def vD : Instance := ⟨"val-3", 3⟩

/-- Concrete cluster for the C4 witness: four distinct validators. -/
def cC4 : Cluster := ⟨[vA, vB, vC, vD], []⟩

/-- Concrete parameters for the C4 witness: a quarter of the nodes go down. -/
def pC4 : PerformanceBenchmarkParams := ⟨25, false, false, 120, none, false⟩

/-- A concrete shuffle of the C4 cluster validators. -/
def sC4 : List Instance := [vC, vA, vB, vD]

/-- C4 witness: the theorem instantiated at a four-validator cluster with a quarter
of nodes down. -/
theorem c4_witness :
    sC4.Perm cC4.validator_instances ∧ pC4.percent_nodes_down ≤ 100 ∧
    cC4.validator_instances.Nodup ∧
    ((build pC4 cC4 sC4).down_validators.length =
      cC4.validator_instances.length * pC4.percent_nodes_down / 100 ∧
    (build pC4 cC4 sC4).down_validators.Disjoint (build pC4 cC4 sC4).up_validators ∧
    ((build pC4 cC4 sC4).down_validators ++ (build pC4 cC4 sC4).up_validators).Perm
      cC4.validator_instances ∧
    (∀ v : Instance, (v ∈ (build pC4 cC4 sC4).down_validators ∨
        v ∈ (build pC4 cC4 sC4).up_validators) ↔ v ∈ cC4.validator_instances)) :=
  ⟨by decide, by decide, by decide,
    c4_split_invariants pC4 cC4 sC4 (by decide) (by decide) (by decide)⟩

/-- C5: when log-index tracing is requested, the final trace value is determined by
the log-index fetch alone: a successful fetch replaces any live result, a failed
fetch leaves no trace at all even if a live result existed. -/
theorem c5_log_override (b : PerformanceBenchmark) (env : Env)
    (h : b.use_logs_for_trace = true) :
    (∀ t, env.logResult = .ok t → resolveTrace b env = some t) ∧
    (∀ e, env.logResult = .error e → resolveTrace b env = none) := by
  constructor <;> intro x hx <;> simp [resolveTrace, h, hx]

/-- Benchmark value for the C5 witness: both live tracing and log-index tracing are
requested, so a live result exists and is then discarded. -/
def bC5 : PerformanceBenchmark := ⟨[], [vA], [], 0, 120, true, none, true, false⟩

/-- Environment for the C5 witness: a live capture exists but the log-index fetch
fails. -/
def envC5 : Env :=
  ⟨.ok (), 0, .ok ⟨1, 1⟩, [("n", evC3)], .error "elasticsearch down", 0, none, none,
    .ok ()⟩

/-- C5 witness: the theorem instantiated at an input where a live result exists and
the log-index fetch fails, so the trace becomes empty. -/
theorem c5_witness :
    bC5.use_logs_for_trace = true ∧ envC5.logResult = .error "elasticsearch down" ∧
    resolveTrace bC5 envC5 = none :=
  ⟨rfl, rfl, (c5_log_override bC5 envC5 rfl).2 "elasticsearch down" rfl⟩

/-- Stop commands are not load commands. -/
theorem no_emit_in_stop (l : List Instance) :
    (l.map Action.stop).filter isEmitAct = [] := by
  refine filter_false_of_all _ _ ?_
  intro a ha
  rcases List.mem_map.mp ha with ⟨v, _, rfl⟩
  rfl

/-- The backup spawn command is not a load command. -/
theorem no_emit_in_backupacts (bh : Option Instance) :
    (backupActions bh).filter isEmitAct = [] := by
  cases bh <;> rfl

/-- Restart commands are not load commands. -/
theorem no_emit_in_restart (l : List Instance) :
    ((l.map fun v => Action.restart v false).filter isEmitAct) = [] := by
  refine filter_false_of_all _ _ ?_
  intro a ha
  rcases List.mem_map.mp ha with ⟨v, _, rfl⟩
  rfl

/-- Report never issues load commands. -/
theorem no_emit_in_report (b : PerformanceBenchmark) (env : Env)
    (window : Nat) (stats : TxStats) :
    (report b env window stats).1.filter isEmitAct = [] := by
  unfold report
  cases havg : env.avgTxnsPerBlock <;> cases hb : b.backup <;>
    simp [List.filter_append, List.filter_cons, isEmitAct]

/-- The load command a run issues: exactly one, with the window
`duration + 60 * 2`, as soon as the stop calls and the backup start succeed, and
none otherwise. -/
theorem run_filter_emit (b : PerformanceBenchmark) (ctx : Context) (env : Env) :
    (run b ctx env).actions.filter isEmitAct =
      (if emitReached b env then
        [Action.emitTxn (b.duration + 60 * 2)
          (mkEmitJobRequest b.tps (chosenInstances ctx b) ctx.global_emit_job_request)]
       else []) := by
  obtain ⟨dv, uv, uf, pnd, dur, btr, btps, blog, bback⟩ := b
  obtain ⟨stopR, bpick, statsR, live, logR, npick, avgT, avgB, restR⟩ := env
  unfold run emitReached resolveTrace finishRun
  cases stopR with
  | error e => simp [exceptOk, no_emit_in_stop]
  | ok u =>
    cases hback : maybe_start_backup ⟨dv, uv, uf, pnd, dur, btr, btps, blog, bback⟩
        bpick with
    | error e => simp [exceptOk, no_emit_in_stop]
    | ok bh =>
      cases blog with
      | true =>
        cases logR with
        | error e2 =>
          cases statsR with
          | error e3 =>
            simp [exceptOk, List.filter_append, List.filter_cons, isEmitAct,
              no_emit_in_stop, no_emit_in_backupacts,
              apply_ite (List.filter isEmitAct)]
          | ok s =>
            cases restR <;>
              simp [exceptOk, List.filter_append, List.filter_cons, isEmitAct,
                no_emit_in_stop, no_emit_in_backupacts, no_emit_in_report,
                no_emit_in_restart, report_snd, apply_ite (List.filter isEmitAct)]
        | ok t =>
          cases hnode : random_node (sortEvents (normalizeEvents t))
              "json-rpc::submit" "txn::" npick with
          | none =>
            simp [exceptOk, List.filter_append, List.filter_cons, isEmitAct,
              no_emit_in_stop, no_emit_in_backupacts, hnode,
              apply_ite (List.filter isEmitAct)]
          | some node =>
            cases statsR with
            | error e3 =>
              simp [exceptOk, List.filter_append, List.filter_cons, isEmitAct,
                no_emit_in_stop, no_emit_in_backupacts, hnode,
                apply_ite (List.filter isEmitAct)]
            | ok s =>
              cases restR <;>
                simp [exceptOk, List.filter_append, List.filter_cons, isEmitAct,
                  no_emit_in_stop, no_emit_in_backupacts, no_emit_in_report,
                  no_emit_in_restart, report_snd, hnode,
                  apply_ite (List.filter isEmitAct)]
      | false =>
        cases btr with
        | false =>
          cases statsR with
          | error e3 =>
            simp [exceptOk, List.filter_append, List.filter_cons, isEmitAct,
              no_emit_in_stop, no_emit_in_backupacts,
              apply_ite (List.filter isEmitAct)]
          | ok s =>
            cases restR <;>
              simp [exceptOk, List.filter_append, List.filter_cons, isEmitAct,
                no_emit_in_stop, no_emit_in_backupacts, no_emit_in_report,
                no_emit_in_restart, report_snd, apply_ite (List.filter isEmitAct)]
        | true =>
          cases hnode : random_node (sortEvents (normalizeEvents live))
              "json-rpc::submit" "txn::" npick with
          | none =>
            simp [exceptOk, List.filter_append, List.filter_cons, isEmitAct,
              no_emit_in_stop, no_emit_in_backupacts, hnode,
              apply_ite (List.filter isEmitAct)]
          | some node =>
            cases statsR with
            | error e3 =>
              simp [exceptOk, List.filter_append, List.filter_cons, isEmitAct,
                no_emit_in_stop, no_emit_in_backupacts, hnode,
                apply_ite (List.filter isEmitAct)]
            | ok s =>
              cases restR <;>
                simp [exceptOk, List.filter_append, List.filter_cons, isEmitAct,
                  no_emit_in_stop, no_emit_in_backupacts, no_emit_in_report,
                  no_emit_in_restart, report_snd, hnode,
                  apply_ite (List.filter isEmitAct)]

/-- C6: whenever the emit step is reached, the load is driven exactly once and its
window is exactly `duration + 2 * 60` seconds (buffer fixed at 60s); no load command
is issued otherwise. -/
theorem c6_load_window (b : PerformanceBenchmark) (ctx : Context) (env : Env) :
    (run b ctx env).actions.filter isEmitAct =
      (if emitReached b env then
        [Action.emitTxn (b.duration + 2 * 60)
          (mkEmitJobRequest b.tps (chosenInstances ctx b) ctx.global_emit_job_request)]
       else []) :=
  run_filter_emit b ctx env

/-- C7: when `tps` is `some t` the emit request issued is the fixed-rate request
with target rate exactly `t` over the chosen instance set; when `tps` is `none` it
is derived from the global default request. -/
theorem c7_emit_request (b : PerformanceBenchmark) (ctx : Context) (env : Env) :
    (∀ t, b.tps = some t →
      (run b ctx env).actions.filter isEmitAct =
        (if emitReached b env then
          [Action.emitTxn (b.duration + 2 * 60)
            (EmitJobRequest.fixedTps (chosenInstances ctx b) t)] else [])) ∧
    (b.tps = none →
      (run b ctx env).actions.filter isEmitAct =
        (if emitReached b env then
          [Action.emitTxn (b.duration + 2 * 60)
            (EmitJobRequest.forInstances (chosenInstances ctx b)
              ctx.global_emit_job_request)] else [])) := by
  constructor
  · intro t ht
    rw [run_filter_emit]
    simp [ht, mkEmitJobRequest]
  · intro ht
    rw [run_filter_emit]
    simp [ht, mkEmitJobRequest]

/-- Benchmark value for the C7 witness: fixed 500 tps. -/
def bC7 : PerformanceBenchmark := ⟨[], [vA], [], 0, 120, false, some 500, false, false⟩

/-- Environment for the C7 witness: every external call succeeds. -/
def envC7 : Env := ⟨.ok (), 0, .ok ⟨1, 1⟩, [], .ok [], 0, none, none, .ok ()⟩

/-- C7 witness: the theorem instantiated at a run with `tps = some 500`. -/
theorem c7_witness :
    bC7.tps = some 500 ∧
    (run bC7 ctx0 envC7).actions.filter isEmitAct =
      (if emitReached bC7 envC7 then
        [Action.emitTxn (bC7.duration + 2 * 60)
          (EmitJobRequest.fixedTps (chosenInstances ctx0 bC7) 500)] else []) :=
  ⟨rfl, (c7_emit_request bC7 ctx0 envC7).1 500 rfl⟩

/-- Timestamp order on trace events is total. -/
instance : IsTotal TraceEvent fun a b => a.timestamp ≤ b.timestamp :=
  ⟨fun a b => Nat.le_total a.timestamp b.timestamp⟩

/-- Timestamp order on trace events is transitive. -/
instance : IsTrans TraceEvent fun a b => a.timestamp ≤ b.timestamp :=
  ⟨fun _ _ _ hab hbc => Nat.le_trans hab hbc⟩

/-- C8: merging the per-node events and sorting yields a permutation of the merged
events that is sorted by timestamp ascending (an event with a smaller timestamp
appears before any event with a larger one, whatever its source node), and any two
events with equal timestamps keep their original discovery order. -/
theorem c8_stable_sort (tr : List (String × TraceEvent)) :
    (sortEvents (normalizeEvents tr)).Perm (normalizeEvents tr) ∧
    List.Pairwise (fun a b : TraceEvent => a.timestamp ≤ b.timestamp)
      (sortEvents (normalizeEvents tr)) ∧
    (∀ a b : TraceEvent, List.Sublist [a, b] (normalizeEvents tr) → a.timestamp = b.timestamp →
      List.Sublist [a, b] (sortEvents (normalizeEvents tr))) := by
  refine ⟨List.perm_insertionSort _ _, List.sorted_insertionSort _ _, ?_⟩
  intro a b hsub heq
  exact List.pair_sublist_insertionSort (le_of_eq heq) hsub

/-- First event for the C8 witness. -/
def evX : TraceEvent := ⟨7, "json-rpc::submit", "txn::x", none⟩

/-- Second event for the C8 witness, with the same timestamp as the first. -/
def evY : TraceEvent := ⟨7, "json-rpc::submit", "txn::y", none⟩

/-- Per-node trace pairs for the C8 witness. -/
def trC8 : List (String × TraceEvent) := [("n1", evX), ("n2", evY)]

/-- C8 witness: two events with equal timestamps from different nodes keep their
discovery order through the sort. -/
theorem c8_witness :
    (List.Sublist [setPeer "n1" evX, setPeer "n2" evY] (normalizeEvents trC8)) ∧
    (setPeer "n1" evX).timestamp = (setPeer "n2" evY).timestamp ∧
    List.Sublist [setPeer "n1" evX, setPeer "n2" evY] (sortEvents (normalizeEvents trC8)) := by
  have hsub : List.Sublist [setPeer "n1" evX, setPeer "n2" evY] (normalizeEvents trC8) :=
    List.Sublist.refl _
  exact ⟨hsub, rfl, (c8_stable_sort trC8).2.2 _ _ hsub rfl⟩

/-- C9: the experiment label is "fixed tps t" when `tps` is `some t` (taking
precedence over the down percentage), otherwise "all up" when no nodes are down,
otherwise "<percent>% down". -/
theorem c9_label (b : PerformanceBenchmark) :
    (∀ t, b.tps = some t → label b = "fixed tps " ++ toString t) ∧
    (b.tps = none → b.percent_nodes_down = 0 → label b = "all up") ∧
    (b.tps = none → b.percent_nodes_down ≠ 0 →
      label b = toString b.percent_nodes_down ++ "% down") := by
  refine ⟨?_, ?_, ?_⟩
  · intro t ht; simp [label, ht]
  · intro ht hp; simp [label, ht, hp]
  · intro ht hp; simp [label, ht, hp]

/-- Benchmark value for the C9 witness: fixed 500 tps. -/
def bC9 : PerformanceBenchmark := ⟨[], [], [], 0, 120, false, some 500, false, false⟩

/-- C9 witness: the label at `tps = some 500` is "fixed tps 500". -/
theorem c9_witness :
    bC9.tps = some 500 ∧ label bC9 = "fixed tps " ++ toString 500 :=
  ⟨rfl, (c9_label bC9).1 500 rfl⟩

/-- C10: neither `run` nor `report` modifies the experiment value: every
configuration field after a run, and after reporting, is exactly its build-time
value. -/
theorem c10_config_unchanged (b : PerformanceBenchmark) (ctx : Context) (env : Env)
    (window : Nat) (stats : TxStats) :
    (run b ctx env).final = b ∧ (report b env window stats).2 = b := by
  refine ⟨?_, rfl⟩
  obtain ⟨dv, uv, uf, pnd, dur, btr, btps, blog, bback⟩ := b
  obtain ⟨stopR, bpick, statsR, live, logR, npick, avgT, avgB, restR⟩ := env
  unfold run resolveTrace finishRun
  cases stopR with
  | error e => simp
  | ok u =>
    cases hback : maybe_start_backup ⟨dv, uv, uf, pnd, dur, btr, btps, blog, bback⟩
        bpick with
    | error e => simp
    | ok bh =>
      cases blog with
      | true =>
        cases logR with
        | error e2 =>
          cases statsR with
          | error e3 => simp
          | ok s => cases restR <;> simp [report_snd]
        | ok t =>
          cases hnode : random_node (sortEvents (normalizeEvents t))
              "json-rpc::submit" "txn::" npick with
          | none => simp [hnode]
          | some node =>
            cases statsR with
            | error e3 => simp [hnode]
            | ok s => cases restR <;> simp [hnode, report_snd]
      | false =>
        cases btr with
        | false =>
          cases statsR with
          | error e3 => simp
          | ok s => cases restR <;> simp [report_snd]
        | true =>
          cases hnode : random_node (sortEvents (normalizeEvents live))
              "json-rpc::submit" "txn::" npick with
          | none => simp [hnode]
          | some node =>
            cases statsR with
            | error e3 => simp [hnode]
            | ok s => cases restR <;> simp [hnode, report_snd]

end ClusterTest
